import Mathlib

set_option autoImplicit false

namespace CopilotDevcontainers

/-!
Shallow embedding of the copilot-devcontainers core: the sandbox lifecycle
functions of `src/sandbox.ts` and `src/worktree.ts`, and the orchestration /
task / issue ledger of `src/store.ts`.  Effectful collaborators (git, the
devcontainer CLI, the filesystem) are modelled by explicit environment records
carrying the outcome of each external call, and the mutable state (worktrees,
branches, running containers, session metadata, ledger documents) is passed
explicitly.  Timestamps and generated UUIDs are supplied as parameters.
-/

-- ── Association lists standing in for JS objects keyed by id ──

/-- Lookup in a JS-object-like association list, first binding wins
(keys are kept unique by `setRec`). -/
def lookupRec {α : Type} : List (String × α) → String → Option α
  | [], _ => none
  | (k', v') :: rest, k => if k' == k then some v' else lookupRec rest k

/-- JS-object assignment `m[k] = v`: replaces the binding in place if the key
exists, appends a new binding otherwise (preserving JS insertion order). -/
def setRec {α : Type} : List (String × α) → String → α → List (String × α)
  | [], k, v => [(k, v)]
  | (k', v') :: rest, k, v =>
      if k' == k then (k, v) :: rest else (k', v') :: setRec rest k v

-- ── Ledger data model (src/store.ts) ──

inductive TaskStatus where
  | pending
  | in_progress
  | done
  | failed
  | cancelled
deriving DecidableEq

inductive OrchStatus where
  | active
  | completed
  | failed
deriving DecidableEq

structure Orchestration where
  id : String
  description : String
  status : OrchStatus
  createdAt : String
  updatedAt : String
deriving DecidableEq

structure OrchestratorTask where
  id : String
  orchestrationId : String
  title : String
  description : String
  status : TaskStatus
  branch : Option String
  sessionId : Option String
  reviewSessionId : Option String
  dependencies : List String
  createdAt : String
  updatedAt : String
  result : Option String
deriving DecidableEq

structure StoreData where
  orchestrations : List (String × Orchestration)
  tasks : List (String × OrchestratorTask)
deriving DecidableEq

/-- Result of an update to an optional scalar field: a supplied value replaces,
an absent one leaves the current value. -/
def updField {α : Type} (upd cur : Option α) : Option α :=
  match upd with
  | some v => some v
  | none => cur

structure OrchUpdates where
  description : Option String
  status : Option OrchStatus

/-- `OrchestratorStore.updateOrchestration`: field-level update of an existing
orchestration; raises when the id is unknown. -/
def updateOrchestration (d : StoreData) (id : String) (u : OrchUpdates) (now : String) :
    Except String (Orchestration × StoreData) :=
  match lookupRec d.orchestrations id with
  | none => Except.error ("Orchestration not found: " ++ id)
  | some o =>
      let o2 : Orchestration :=
        { o with
          description := (u.description).getD o.description
          status := (u.status).getD o.status
          updatedAt := now }
      Except.ok (o2, { d with orchestrations := setRec d.orchestrations id o2 })

structure TaskUpdates where
  status : Option TaskStatus
  branch : Option String
  sessionId : Option String
  reviewSessionId : Option String
  result : Option String

/-- `OrchestratorStore.updateTask`: field-level update of an existing task;
raises when the id is unknown. -/
def updateTask (d : StoreData) (id : String) (u : TaskUpdates) (now : String) :
    Except String (OrchestratorTask × StoreData) :=
  match lookupRec d.tasks id with
  | none => Except.error ("Task not found: " ++ id)
  | some t =>
      let t2 : OrchestratorTask :=
        { t with
          status := (u.status).getD t.status
          branch := updField u.branch t.branch
          sessionId := updField u.sessionId t.sessionId
          reviewSessionId := updField u.reviewSessionId t.reviewSessionId
          result := updField u.result t.result
          updatedAt := now }
      Except.ok (t2, { d with tasks := setRec d.tasks id t2 })

/-- `OrchestratorStore.getUnmetDependencies`: resolve each declared dependency
id and keep those that exist and are not `done`; unknown ids are dropped. -/
def getUnmetDependencies (d : StoreData) (taskId : String) : List OrchestratorTask :=
  match lookupRec d.tasks taskId with
  | none => []
  | some t =>
      (t.dependencies.filterMap (fun depId => lookupRec d.tasks depId)).filter
        (fun dep => dep.status != TaskStatus.done)

/-- True when a dependency id resolves to a stored task whose status is the
terminal-success status. -/
def depHasDoneStatus (d : StoreData) (depId : String) : Bool :=
  match lookupRec d.tasks depId with
  | some dep => dep.status == TaskStatus.done
  | none => false

-- ── Issue store (src/store.ts) ──

inductive IssuePriority where
  | high
  | medium
  | low
deriving DecidableEq

inductive IssueStatus where
  | open'
  | in_progress
  | resolved
  | closed
deriving DecidableEq

structure Issue where
  id : String
  title : String
  description : String
  status : IssueStatus
  priority : IssuePriority
  labels : List String
  linkedCommits : List String
  linkedTasks : List String
  resolution : Option String
  sourceFile : Option String
  createdAt : String
  updatedAt : String
deriving DecidableEq

structure IssueStoreData where
  issues : List (String × Issue)
deriving DecidableEq

structure CreateIssueOpts where
  id : Option String
  title : String
  description : String
  priority : Option IssuePriority
  labels : Option (List String)
  sourceFile : Option String

/-- `IssueStore.createIssue`: a fresh issue starts open, with the supplied or
default priority and labels, empty link lists, and both timestamps at `now`. -/
def createIssue (d : IssueStoreData) (opts : CreateIssueOpts) (freshId now : String) :
    Issue × IssueStoreData :=
  let issue : Issue :=
    { id := (opts.id).getD freshId
      title := opts.title
      description := opts.description
      status := IssueStatus.open'
      priority := (opts.priority).getD IssuePriority.medium
      labels := (opts.labels).getD []
      linkedCommits := []
      linkedTasks := []
      resolution := none
      sourceFile := opts.sourceFile
      createdAt := now
      updatedAt := now }
  (issue, { d with issues := setRec d.issues issue.id issue })

structure IssueUpdates where
  status : Option IssueStatus
  priority : Option IssuePriority
  labels : Option (List String)
  resolution : Option String
  linkedCommits : Option (List String)
  linkedTasks : Option (List String)
  sourceFile : Option String

/-- The field-by-field effect of `IssueStore.updateIssue` on the stored issue
record: supplied scalars and `labels` replace, supplied `linkedCommits` and
`linkedTasks` append, `updatedAt` is stamped. -/
def appliedIssueUpdate (issue : Issue) (u : IssueUpdates) (now : String) : Issue :=
  { issue with
    status := (u.status).getD issue.status
    priority := (u.priority).getD issue.priority
    labels := (u.labels).getD issue.labels
    resolution := updField u.resolution issue.resolution
    linkedCommits := issue.linkedCommits ++ (u.linkedCommits).getD []
    linkedTasks := issue.linkedTasks ++ (u.linkedTasks).getD []
    sourceFile := updField u.sourceFile issue.sourceFile
    updatedAt := now }

/-- `IssueStore.updateIssue`: scalar fields and `labels` are replaced when
supplied, `linkedCommits` and `linkedTasks` are appended to, `updatedAt` is
stamped; raises when the id is unknown. -/
def updateIssue (d : IssueStoreData) (id : String) (u : IssueUpdates) (now : String) :
    Except String (Issue × IssueStoreData) :=
  match lookupRec d.issues id with
  | none => Except.error ("Issue not found: " ++ id)
  | some issue =>
      let issue2 : Issue :=
        { issue with
          status := (u.status).getD issue.status
          priority := (u.priority).getD issue.priority
          labels := (u.labels).getD issue.labels
          resolution := updField u.resolution issue.resolution
          linkedCommits := issue.linkedCommits ++ (u.linkedCommits).getD []
          linkedTasks := issue.linkedTasks ++ (u.linkedTasks).getD []
          sourceFile := updField u.sourceFile issue.sourceFile
          updatedAt := now }
      Except.ok (issue2, { d with issues := setRec d.issues id issue2 })

-- ── Worktree layer (src/worktree.ts) ──

structure WorktreeInfo where
  path : String
  branch : String
  head : String
  isBare : Bool
deriving DecidableEq

structure RebaseResult where
  success : Bool
  conflictFiles : Option (List String)
deriving DecidableEq

/-- Outcomes of the external git commands issued by `rebaseWorktree`: whether
`git rebase` succeeded, and the stdout of the follow-up
`git diff --name-only --diff-filter=U` (`none` models that command itself
failing). -/
structure RebaseEnv where
  rebaseOk : Bool
  diffOutput : Option String

/-- Strip leading and trailing whitespace, as `String.prototype.trim`. -/
def trimChars (cs : List Char) : List Char :=
  ((cs.dropWhile Char.isWhitespace).reverse.dropWhile Char.isWhitespace).reverse

/-- Split a character list at newlines (the pieces, in order, newline
delimiters dropped), as `split("\n")`. -/
def splitNl : List Char → List Char → List (List Char)
  | [], acc => [acc.reverse]
  | c :: cs, acc =>
      if c = '\n' then acc.reverse :: splitNl cs [] else splitNl cs (c :: acc)

/-- `output.trim().split("\n").filter(Boolean)` applied to the conflicted-paths
listing (structural over the character list so that it evaluates on concrete
inputs). -/
def conflictLines (out : String) : List String :=
  ((splitNl (trimChars out.data) []).filter (fun cs => !cs.isEmpty)).map
    (fun cs => String.mk cs)

/-- Error raised by `rebaseWorktree` on a non-conflict failure. -/
def rebaseFailedMsg (ontoBranch : String) : String :=
  "Rebase of worktree onto \"" ++ ontoBranch ++ "\" failed."

instance {ε α : Type} [DecidableEq ε] [DecidableEq α] : DecidableEq (Except ε α) := fun a b =>
  match a, b with
  | Except.error x, Except.error y =>
      if h : x = y then isTrue (by rw [h]) else isFalse (fun hh => h (by injection hh))
  | Except.ok x, Except.ok y =>
      if h : x = y then isTrue (by rw [h]) else isFalse (fun hh => h (by injection hh))
  | Except.error _, Except.ok _ => isFalse (fun hh => Except.noConfusion hh)
  | Except.ok _, Except.error _ => isFalse (fun hh => Except.noConfusion hh)

/-- Result of running `rebaseWorktree`: the returned value or raised error,
plus whether a `git rebase --abort` was issued (when it was not, a failed
rebase is left in its mid-rebase state). -/
structure RebaseRun where
  result : Except String RebaseResult
  abortAttempted : Bool
deriving DecidableEq

/-- `rebaseWorktree` of src/worktree.ts: on success returns success; on failure
lists conflicted paths and, if there are any, returns them as data leaving the
rebase in progress; otherwise aborts the rebase and raises. -/
def rebaseWorktree (env : RebaseEnv) (ontoBranch : String) : RebaseRun :=
  if env.rebaseOk then
    { result := Except.ok { success := true, conflictFiles := none }, abortAttempted := false }
  else
    match env.diffOutput with
    | some out =>
        let files := conflictLines out
        if files.length > 0 then
          { result := Except.ok { success := false, conflictFiles := some files },
            abortAttempted := false }
        else
          { result := Except.error (rebaseFailedMsg ontoBranch), abortAttempted := true }
    | none =>
        { result := Except.error (rebaseFailedMsg ontoBranch), abortAttempted := true }

-- ── Sandbox world state ──

structure SessionEntry where
  sessionId : String
  createdAt : String
  task : Option String
deriving DecidableEq

/-- Observable state the sandbox lifecycle functions act on: the live
worktrees and local branches of the repository, the set of worktree paths with
a running container, the per-worktree `.copilot-sandbox.json` session
metadata, and the branch checked out in the main worktree. -/
structure World where
  worktrees : List WorktreeInfo
  branches : List String
  running : List String
  metadata : List (String × List SessionEntry)
  currentBranch : String
deriving DecidableEq

/-- `worktrees.find(wt => wt.branch === branch)`. -/
def findWorktree (w : World) (branch : String) : Option WorktreeInfo :=
  w.worktrees.find? (fun wt => wt.branch == branch)

/-- `readSandboxMetadata`: a missing or unparsable metadata file reads as an
empty session list. -/
def readSessions (w : World) (p : String) : List SessionEntry :=
  (lookupRec w.metadata p).getD []

/-- `addSessionEntry`: read the metadata, push the entry, write it back. -/
def addSessionEntry (w : World) (p : String) (e : SessionEntry) : World :=
  { w with metadata := setRec w.metadata p (readSessions w p ++ [e]) }

/-- Effect of a successful `containerUp` on the running set (idempotent). -/
def startContainer (w : World) (p : String) : World :=
  if w.running.contains p then w else { w with running := w.running ++ [p] }

/-- Effect of a successful `containerDown`. -/
def stopContainer (w : World) (p : String) : World :=
  { w with running := w.running.filter (fun q => q != p) }

/-- The outcome record of `devcontainer up` (JSON-lines culminating in an
outcome record). -/
structure ContainerUpReport where
  outcome : String
  message : Option String
  containerId : Option String
  remoteUser : Option String
  remoteWorkspaceFolder : Option String
deriving DecidableEq

/-- Outcome of a `containerUp` call: the promise either rejects or resolves
with an outcome report. -/
inductive ContainerUpOutcome where
  | thrown (msg : String)
  | finished (report : ContainerUpReport)
deriving DecidableEq

/-- JS falsiness of an optional string: `!x` is true exactly when the value
is absent (`undefined`) or the empty string. -/
def jsFalsy (x : Option String) : Bool :=
  match x with
  | none => true
  | some s => s == ""

/-- Error message for a branch with no live worktree, as raised by
`sandboxExecCore`, `sandboxDownCore` and `sandboxMergeCore`. -/
def noWorktreeMsg (branch : String) : String :=
  "No worktree found for branch \"" ++ branch ++ "\"."

/-- Error raised when a git `worktree remove` fails (the promise from
`removeWorktree` rejects). -/
def removeWorktreeFailedMsg : String :=
  "git worktree remove failed"

/-- Error raised when `git merge --ff-only` fails. -/
def ffFailedMsg : String :=
  "git merge --ff-only failed"

-- ── Sandbox lifecycle core functions (src/sandbox.ts) ──

/-- Outcomes of the external calls made by `sandboxMergeCore`: the rebase
commands, whether the fast-forward merge succeeds, and whether each teardown
command succeeds. -/
structure MergeEnv where
  rebase : RebaseEnv
  ffOk : Bool
  containerDownOk : Bool
  removeWorktreeOk : Bool
  deleteBranchOk : Bool

structure SandboxMergeResult where
  success : Bool
  merged : Option Bool
  conflictFiles : Option (List String)
deriving DecidableEq

/-- The world after the teardown phase of a clean merge in which the worktree
removal succeeded: container stopped when `containerDownOk`, worktree removed,
branch deleted when `deleteBranchOk`. -/
def mergeTeardownWorld (w : World) (env : MergeEnv) (branch : String)
    (target : WorktreeInfo) : World :=
  let w1 := if env.containerDownOk then stopContainer w target.path else w
  let w2 : World :=
    { w1 with worktrees := w1.worktrees.filter (fun wt => wt.path != target.path) }
  if env.deleteBranchOk then
    { w2 with branches := w2.branches.filter (fun b => b != branch) }
  else w2

/-- `sandboxMergeCore`: locate the worktree for the branch, rebase it onto the
current branch; on conflict return the conflict as data, leaving all state
untouched; on a clean rebase, fast-forward merge, then stop the container
(failure swallowed), remove the worktree (failure propagates), and delete the
branch (failure swallowed). -/
def sandboxMergeCore (w : World) (env : MergeEnv) (branch : String) :
    Except String SandboxMergeResult × World :=
  match findWorktree w branch with
  | none => (Except.error (noWorktreeMsg branch), w)
  | some target =>
      let sourceBranch := w.currentBranch
      let run := rebaseWorktree env.rebase sourceBranch
      match run.result with
      | Except.error e => (Except.error e, w)
      | Except.ok r =>
          if r.success = false then
            (Except.ok { success := false, merged := none, conflictFiles := r.conflictFiles }, w)
          else if env.ffOk = false then
            (Except.error ffFailedMsg, w)
          else
            let w1 := if env.containerDownOk then stopContainer w target.path else w
            if env.removeWorktreeOk = false then
              (Except.error removeWorktreeFailedMsg, w1)
            else
              (Except.ok { success := true, merged := some true, conflictFiles := none },
               mergeTeardownWorld w env branch target)

/-- Options of `sandboxUpCore` (the `interactive` and `verbose` flags and the
output callback have no modelled effect). -/
structure SandboxUpOptions where
  branch : Option String
  base : String
  worktreeDir : Option String
  task : Option String
  sessionId : Option String

/-- External-world inputs of `sandboxUpCore`: repository identity, the
timestamp-derived generated branch name, whether the base ref resolves and the
head it resolves to, the container-up outcome, and the fresh UUID / timestamp /
exit code used when a task is run.  The rollback git commands (removing a
just-created worktree and deleting a just-created branch) are modelled as
succeeding. -/
structure UpEnv where
  gitRoot : String
  repoName : String
  generatedName : String
  baseResolves : Bool
  baseHead : String
  containerUp : ContainerUpOutcome
  freshUuid : String
  now : String
  exitCode : Int

structure SandboxUpResult where
  branch : String
  worktreePath : String
  containerId : Option String
  remoteUser : Option String
  remoteWorkspaceFolder : Option String
  exitCode : Option Int
  sessionId : Option String
deriving DecidableEq

/-- `branchName.replace(/\//g, "-")` (character-wise so that it evaluates on
concrete inputs). -/
def worktreeDirName (branch : String) : String :=
  String.mk (branch.data.map (fun c => if c = '/' then '-' else c))

/-- `options.branch ?? generateBranchName()`. -/
def upBranchName (env : UpEnv) (options : SandboxUpOptions) : String :=
  (options.branch).getD env.generatedName

/-- `path.join(worktreeBase, branchName.replace(...))` where `worktreeBase` is
the supplied directory or the sibling `repoName`-worktrees directory. -/
def upWorktreePath (env : UpEnv) (options : SandboxUpOptions) : String :=
  ((options.worktreeDir).getD (env.gitRoot ++ "/../" ++ env.repoName ++ "-worktrees")) ++
    "/" ++ worktreeDirName (upBranchName env options)

/-- `sandboxUpCore`: resolve the branch name and worktree path, create the
worktree (failing if the branch exists, the base does not resolve, or the path
is occupied), then start the container; if the container fails to start, roll
back the just-created worktree and branch and re-raise; otherwise, when the
task is truthy in the JS sense (present and non-empty), run it and append a
session record. -/
def sandboxUpCore (w : World) (env : UpEnv) (options : SandboxUpOptions) :
    Except String SandboxUpResult × World :=
  let branchName := upBranchName env options
  let worktreePath := upWorktreePath env options
  if w.branches.contains branchName then
    (Except.error ("git worktree add failed: a branch named \"" ++ branchName ++ "\" already exists"), w)
  else if env.baseResolves = false then
    (Except.error ("git worktree add failed: invalid reference: " ++ options.base), w)
  else if w.worktrees.any (fun wt => wt.path == worktreePath) then
    (Except.error ("git worktree add failed: \"" ++ worktreePath ++ "\" already exists"), w)
  else
    let wt : WorktreeInfo :=
      { path := worktreePath, branch := branchName, head := env.baseHead, isBare := false }
    let w1 : World :=
      { w with worktrees := w.worktrees ++ [wt], branches := w.branches ++ [branchName] }
    let rolledBack : World :=
      { w1 with
        worktrees := w1.worktrees.filter (fun x => x.path != worktreePath)
        branches := w1.branches.filter (fun b => b != branchName) }
    match env.containerUp with
    | ContainerUpOutcome.thrown msg => (Except.error msg, rolledBack)
    | ContainerUpOutcome.finished report =>
        if report.outcome != "success" then
          (Except.error ("Container failed to start: " ++ (report.message).getD "unknown error"),
           rolledBack)
        else
          let w2 := startContainer w1 worktreePath
          let base : SandboxUpResult :=
            { branch := branchName
              worktreePath := worktreePath
              containerId := report.containerId
              remoteUser := report.remoteUser
              remoteWorkspaceFolder := report.remoteWorkspaceFolder
              exitCode := none
              sessionId := none }
          match options.task with
          | none => (Except.ok base, w2)
          | some task =>
              if task == "" then
                (Except.ok base, w2)
              else
                let sessionId := (options.sessionId).getD env.freshUuid
                let w3 := addSessionEntry w2 worktreePath
                  { sessionId := sessionId, createdAt := env.now, task := some task }
                (Except.ok
                  { base with
                    exitCode := some env.exitCode
                    sessionId := some sessionId },
                 w3)

structure SandboxExecOpts where
  branch : String
  task : String
  sessionId : Option String

/-- External-world inputs of `sandboxExecCore`. -/
structure ExecEnv where
  containerUp : ContainerUpOutcome
  freshUuid : String
  now : String
  exitCode : Int

structure SandboxExecResult where
  worktreePath : String
  exitCode : Int
  sessionId : String
deriving DecidableEq

/-- `sandboxExecCore`: locate the worktree (NotFound error if absent), ensure
the container is running, run the task, and append a session record only when
the caller-supplied session id is falsy in the JS sense (absent, so the id was
freshly generated, or the empty string). -/
def sandboxExecCore (w : World) (env : ExecEnv) (options : SandboxExecOpts) :
    Except String SandboxExecResult × World :=
  match findWorktree w options.branch with
  | none => (Except.error (noWorktreeMsg options.branch), w)
  | some target =>
      match env.containerUp with
      | ContainerUpOutcome.thrown msg => (Except.error msg, w)
      | ContainerUpOutcome.finished report =>
          if report.outcome != "success" then
            (Except.error ("Container failed to start: " ++ (report.message).getD "unknown error"),
             w)
          else
            let w1 := startContainer w target.path
            let sessionId := (options.sessionId).getD env.freshUuid
            let w2 :=
              if jsFalsy options.sessionId then
                addSessionEntry w1 target.path
                  { sessionId := sessionId, createdAt := env.now, task := some options.task }
              else w1
            (Except.ok { worktreePath := target.path, exitCode := env.exitCode,
                         sessionId := sessionId }, w2)

/-- Outcomes of the external calls made by `sandboxDownCore`. -/
structure DownEnv where
  containerDownOk : Bool
  removeWorktreeOk : Bool
  deleteBranchOk : Bool

/-- `sandboxDownCore`: stop the container (failure swallowed); unless
`containerOnly`, remove the worktree (failure propagates) and delete the
branch (failure swallowed). -/
def sandboxDownCore (w : World) (env : DownEnv) (branch : String) (containerOnly : Bool) :
    Except String Unit × World :=
  match findWorktree w branch with
  | none => (Except.error (noWorktreeMsg branch), w)
  | some target =>
      let w1 := if env.containerDownOk then stopContainer w target.path else w
      if containerOnly then (Except.ok (), w1)
      else if env.removeWorktreeOk = false then
        (Except.error removeWorktreeFailedMsg, w1)
      else
        let w2 : World :=
          { w1 with worktrees := w1.worktrees.filter (fun wt => wt.path != target.path) }
        let w3 : World :=
          if env.deleteBranchOk then
            { w2 with branches := w2.branches.filter (fun b => b != branch) }
          else w2
        (Except.ok (), w3)

structure SandboxCleanupResult where
  orphanedBranches : List String
  deletedBranches : List String
deriving DecidableEq

/-- A local branch matching the sandbox naming convention, with no associated
live worktree, and not the currently checked-out branch. -/
def isOrphanBranch (w : World) (b : String) : Bool :=
  b.startsWith "sandbox/" && w.worktrees.all (fun wt => wt.branch != b) && b != w.currentBranch

/-- Modelled from the spec: the implementation file of `sandboxCleanupCore` is
not among the sources (the test suite imports it from `../src/sandbox.js`, but
only `listLocalBranches` and its tests are present).  Per the spec it
enumerates local branches matching the sandbox naming convention, computes the
subset with no associated live worktree and not equal to the current branch,
and, unless `dryRun`, deletes them, returning both the full orphan set and the
subset actually deleted. -/
def sandboxCleanupCore (w : World) (dryRun : Bool) : SandboxCleanupResult × World :=
  let sandboxBranches := w.branches.filter (fun b => b.startsWith "sandbox/")
  let orphans := sandboxBranches.filter
    (fun b => w.worktrees.all (fun wt => wt.branch != b) && b != w.currentBranch)
  if dryRun then
    ({ orphanedBranches := orphans, deletedBranches := [] }, w)
  else
    ({ orphanedBranches := orphans, deletedBranches := orphans },
     { w with branches := w.branches.filter (fun b => !(orphans.contains b)) })

-- ── Concrete instances used by counterexamples and witnesses ──

/-- A task whose only declared dependency id resolves to no stored task. -/
def ghostDepTask : OrchestratorTask :=
  { id := "t", orchestrationId := "o", title := "T", description := "D",
    status := TaskStatus.pending, branch := none, sessionId := none,
    reviewSessionId := none, dependencies := ["ghost"],
    createdAt := "t0", updatedAt := "t0", result := none }

/-- A store holding only `ghostDepTask`; the id "ghost" is dangling. -/
def ghostDepStore : StoreData :=
  { orchestrations := [], tasks := [("t", ghostDepTask)] }

/-- A live sandbox worktree for branch "b". -/
def sampleWorktree : WorktreeInfo :=
  { path := "/wts/b", branch := "b", head := "h", isBare := false }

/-- A prior session record in the sandbox metadata of `sampleWorld`. -/
def sampleEntry : SessionEntry :=
  { sessionId := "s0", createdAt := "t0", task := some "earlier task" }

/-- A world with one live sandbox (branch "b", container running, one prior
session record). -/
def sampleWorld : World :=
  { worktrees := [sampleWorktree], branches := ["main", "b"], running := ["/wts/b"],
    metadata := [("/wts/b", [sampleEntry])], currentBranch := "main" }

/-- A successful `devcontainer up` outcome record. -/
def successReport : ContainerUpReport :=
  { outcome := "success", message := none, containerId := some "c",
    remoteUser := some "u", remoteWorkspaceFolder := some "/w" }

/-- Merge environment in which everything succeeds except the worktree
removal. -/
def mergeEnvRemoveFails : MergeEnv :=
  { rebase := { rebaseOk := true, diffOutput := none }, ffOk := true,
    containerDownOk := true, removeWorktreeOk := false, deleteBranchOk := true }

/-- Merge environment in which the rebase conflicts on one file. -/
def mergeEnvConflict : MergeEnv :=
  { rebase := { rebaseOk := false, diffOutput := some "f.txt\n" }, ffOk := true,
    containerDownOk := true, removeWorktreeOk := true, deleteBranchOk := true }

/-- Merge environment in which every external call succeeds. -/
def mergeEnvOkAll : MergeEnv :=
  { rebase := { rebaseOk := true, diffOutput := none }, ffOk := true,
    containerDownOk := true, removeWorktreeOk := true, deleteBranchOk := true }

/-- Exec environment in which the container starts successfully. -/
def execEnvOk : ExecEnv :=
  { containerUp := ContainerUpOutcome.finished successReport, freshUuid := "fresh",
    now := "t1", exitCode := 0 }

/-- Exec options resuming a caller-supplied session id. -/
def execOptsResume : SandboxExecOpts :=
  { branch := "b", task := "follow-up task", sessionId := some "s1" }

/-- Exec options with no caller-supplied session id. -/
def execOptsFresh : SandboxExecOpts :=
  { branch := "b", task := "fresh task", sessionId := none }

/-- A world with no worktrees at all. -/
def emptyWorld : World :=
  { worktrees := [], branches := ["main"], running := [], metadata := [],
    currentBranch := "main" }

/-- Up environment whose container start throws. -/
def upEnvThrown : UpEnv :=
  { gitRoot := "/repo", repoName := "repo", generatedName := "sandbox/gen",
    baseResolves := true, baseHead := "h",
    containerUp := ContainerUpOutcome.thrown "boom",
    freshUuid := "u", now := "t", exitCode := 0 }

/-- Up options naming an explicit branch and worktree directory. -/
def upOptsB : SandboxUpOptions :=
  { branch := some "b", base := "main", worktreeDir := some "/wts", task := none,
    sessionId := none }

-- ── Helper lemmas ──

theorem bnot_contains_iff (l : List String) (b : String) :
    (!(l.contains b)) = true ↔ b ∉ l := by
  simp

theorem lookupRec_setRec {α : Type} (m : List (String × α)) (k : String) (v : α) :
    lookupRec (setRec m k v) k = some v := by
  induction m with
  | nil => simp [setRec, lookupRec]
  | cons hd tl ih =>
      by_cases h : hd.1 == k
      · simp [setRec, lookupRec, h]
      · simpa [setRec, lookupRec, h] using ih

theorem readSessions_addSessionEntry (w : World) (p : String) (e : SessionEntry) :
    readSessions (addSessionEntry w p e) p = readSessions w p ++ [e] := by
  simp [readSessions, addSessionEntry, lookupRec_setRec]

theorem startContainer_metadata (w : World) (p : String) :
    (startContainer w p).metadata = w.metadata := by
  unfold startContainer
  split <;> rfl

theorem startContainer_worktrees (w : World) (p : String) :
    (startContainer w p).worktrees = w.worktrees := by
  unfold startContainer
  split <;> rfl

theorem stopContainer_metadata (w : World) (p : String) :
    (stopContainer w p).metadata = w.metadata := rfl

theorem rebaseWorktree_ok (env : RebaseEnv) (onto : String) (h : env.rebaseOk = true) :
    rebaseWorktree env onto =
      { result := Except.ok { success := true, conflictFiles := none },
        abortAttempted := false } := by
  simp [rebaseWorktree, h]

theorem rebaseWorktree_conflict (env : RebaseEnv) (onto : String) (out : String)
    (h1 : env.rebaseOk = false) (h2 : env.diffOutput = some out)
    (h3 : conflictLines out ≠ []) :
    rebaseWorktree env onto =
      { result := Except.ok { success := false, conflictFiles := some (conflictLines out) },
        abortAttempted := false } := by
  have hpos : 0 < (conflictLines out).length := List.length_pos.mpr h3
  simp [rebaseWorktree, h1, h2, hpos]

theorem not_mem_filter_ne_self (l : List String) (b : String) :
    b ∉ l.filter (fun x => x != b) := by
  intro h
  have h2 := (List.mem_filter.mp h).2
  simp at h2

theorem path_ne_of_mem_filter (l : List WorktreeInfo) (p : String)
    (wt : WorktreeInfo) (h : wt ∈ l.filter (fun x => x.path != p)) : wt.path ≠ p := by
  have h2 := (List.mem_filter.mp h).2
  simpa using h2

theorem filter_ne_eq_self_of_not_mem (l : List String) (b : String) (h : b ∉ l) :
    l.filter (fun x => x != b) = l := by
  refine List.filter_eq_self.mpr ?_
  intro a ha
  simp only [bne_iff_ne, ne_eq]
  intro he
  exact h (he ▸ ha)

theorem filter_path_ne_eq_self (l : List WorktreeInfo) (p : String)
    (h : ∀ wt ∈ l, wt.path ≠ p) : l.filter (fun x => x.path != p) = l := by
  refine List.filter_eq_self.mpr ?_
  intro a ha
  simpa using h a ha

theorem readSessions_startContainer (w : World) (p q : String) :
    readSessions (startContainer w p) q = readSessions w q := by
  unfold startContainer
  split <;> rfl

-- ── Claims ──

/-- C10: a freshly created issue starts with status open, the supplied
priority or medium by default, the supplied labels or the empty list, empty
linked-commit and linked-task lists, and equal creation and update
timestamps. -/
theorem createIssue_initial_state (d : IssueStoreData) (opts : CreateIssueOpts)
    (freshId now : String) :
    (createIssue d opts freshId now).1.status = IssueStatus.open' ∧
    (createIssue d opts freshId now).1.priority = (opts.priority).getD IssuePriority.medium ∧
    (createIssue d opts freshId now).1.labels = (opts.labels).getD [] ∧
    (createIssue d opts freshId now).1.linkedCommits = [] ∧
    (createIssue d opts freshId now).1.linkedTasks = [] ∧
    (createIssue d opts freshId now).1.createdAt = now ∧
    (createIssue d opts freshId now).1.updatedAt = now ∧
    (createIssue d opts freshId now).1.createdAt = (createIssue d opts freshId now).1.updatedAt :=
  ⟨rfl, rfl, rfl, rfl, rfl, rfl, rfl, rfl⟩

/-- C8: every operation that references an entity by identifier — exec, down
and merge on a branch with no live worktree, and update on an unknown task,
issue or orchestration id — returns an explicit not-found error and leaves the
referenced state unchanged (the update functions produce no new store, and the
sandbox operations return the input world untouched). -/
theorem notFound_explicit_error :
    (∀ (d : StoreData) (id : String) (u : TaskUpdates) (now : String),
        lookupRec d.tasks id = none →
        updateTask d id u now = Except.error ("Task not found: " ++ id)) ∧
    (∀ (d : IssueStoreData) (id : String) (u : IssueUpdates) (now : String),
        lookupRec d.issues id = none →
        updateIssue d id u now = Except.error ("Issue not found: " ++ id)) ∧
    (∀ (d : StoreData) (id : String) (u : OrchUpdates) (now : String),
        lookupRec d.orchestrations id = none →
        updateOrchestration d id u now = Except.error ("Orchestration not found: " ++ id)) ∧
    (∀ (w : World) (env : ExecEnv) (options : SandboxExecOpts),
        findWorktree w options.branch = none →
        sandboxExecCore w env options = (Except.error (noWorktreeMsg options.branch), w)) ∧
    (∀ (w : World) (env : DownEnv) (branch : String) (containerOnly : Bool),
        findWorktree w branch = none →
        sandboxDownCore w env branch containerOnly = (Except.error (noWorktreeMsg branch), w)) ∧
    (∀ (w : World) (env : MergeEnv) (branch : String),
        findWorktree w branch = none →
        sandboxMergeCore w env branch = (Except.error (noWorktreeMsg branch), w)) := by
  refine ⟨?_, ?_, ?_, ?_, ?_, ?_⟩
  · intro d id u now h
    simp [updateTask, h]
  · intro d id u now h
    simp [updateIssue, h]
  · intro d id u now h
    simp [updateOrchestration, h]
  · intro w env options h
    simp [sandboxExecCore, h]
  · intro w env branch containerOnly h
    simp [sandboxDownCore, h]
  · intro w env branch h
    simp [sandboxMergeCore, h]

/-- Witness for C8 at concrete inputs: an empty store and an empty world. -/
theorem notFound_explicit_error_witness :
    updateTask { orchestrations := [], tasks := [] } "t1"
        { status := none, branch := none, sessionId := none, reviewSessionId := none,
          result := none } "now"
      = Except.error ("Task not found: " ++ "t1") ∧
    updateIssue { issues := [] } "i1"
        { status := none, priority := none, labels := none, resolution := none,
          linkedCommits := none, linkedTasks := none, sourceFile := none } "now"
      = Except.error ("Issue not found: " ++ "i1") ∧
    updateOrchestration { orchestrations := [], tasks := [] } "o1"
        { description := none, status := none } "now"
      = Except.error ("Orchestration not found: " ++ "o1") ∧
    sandboxExecCore
        { worktrees := [], branches := ["main"], running := [], metadata := [],
          currentBranch := "main" }
        { containerUp := ContainerUpOutcome.thrown "boom", freshUuid := "u", now := "now",
          exitCode := 0 }
        { branch := "b", task := "t", sessionId := none }
      = (Except.error (noWorktreeMsg "b"),
         { worktrees := [], branches := ["main"], running := [], metadata := [],
           currentBranch := "main" }) ∧
    sandboxDownCore
        { worktrees := [], branches := ["main"], running := [], metadata := [],
          currentBranch := "main" }
        { containerDownOk := true, removeWorktreeOk := true, deleteBranchOk := true } "b" false
      = (Except.error (noWorktreeMsg "b"),
         { worktrees := [], branches := ["main"], running := [], metadata := [],
           currentBranch := "main" }) ∧
    sandboxMergeCore
        { worktrees := [], branches := ["main"], running := [], metadata := [],
          currentBranch := "main" }
        { rebase := { rebaseOk := true, diffOutput := none }, ffOk := true,
          containerDownOk := true, removeWorktreeOk := true, deleteBranchOk := true } "b"
      = (Except.error (noWorktreeMsg "b"),
         { worktrees := [], branches := ["main"], running := [], metadata := [],
           currentBranch := "main" }) :=
  ⟨notFound_explicit_error.1 _ _ _ _ rfl,
   notFound_explicit_error.2.1 _ _ _ _ rfl,
   notFound_explicit_error.2.2.1 _ _ _ _ rfl,
   notFound_explicit_error.2.2.2.1 _ _ _ rfl,
   notFound_explicit_error.2.2.2.2.1 _ _ _ _ rfl,
   notFound_explicit_error.2.2.2.2.2 _ _ _ rfl⟩

/-- C6: `rebaseWorktree` returns success when the rebase succeeds; on a rebase
failure with at least one conflicted path it returns the conflict as data and
does not abort (the repository stays mid-rebase); on a rebase failure with no
conflicted paths (or when the conflict listing itself fails) it aborts and
raises a VCS error. -/
theorem rebaseWorktree_spec (env : RebaseEnv) (onto : String) :
    (env.rebaseOk = true →
      rebaseWorktree env onto =
        { result := Except.ok { success := true, conflictFiles := none },
          abortAttempted := false }) ∧
    (env.rebaseOk = false → ∀ out, env.diffOutput = some out → conflictLines out ≠ [] →
      rebaseWorktree env onto =
        { result := Except.ok { success := false, conflictFiles := some (conflictLines out) },
          abortAttempted := false }) ∧
    (env.rebaseOk = false → (∀ out, env.diffOutput = some out → conflictLines out = []) →
      rebaseWorktree env onto =
        { result := Except.error (rebaseFailedMsg onto), abortAttempted := true }) := by
  refine ⟨?_, ?_, ?_⟩
  · intro h
    simp [rebaseWorktree, h]
  · intro h out hout hne
    have hpos : 0 < (conflictLines out).length := List.length_pos.mpr hne
    simp [rebaseWorktree, h, hout, hpos]
  · intro h hempty
    cases hdiff : env.diffOutput with
    | none => simp [rebaseWorktree, h, hdiff]
    | some out =>
        have : conflictLines out = [] := hempty out hdiff
        simp [rebaseWorktree, h, hdiff, this]

/-- Witness for C6: a conflicted rebase with two conflicted paths. -/
theorem rebaseWorktree_spec_witness :
    rebaseWorktree { rebaseOk := false, diffOutput := some "a.txt\nb.txt\n" } "main" =
      { result := Except.ok
          { success := false, conflictFiles := some (conflictLines "a.txt\nb.txt\n") },
        abortAttempted := false } :=
  (rebaseWorktree_spec { rebaseOk := false, diffOutput := some "a.txt\nb.txt\n" } "main").2.1
    rfl "a.txt\nb.txt\n" rfl (by decide)

/-- C4: updating an existing issue appends supplied `linkedCommits` and
`linkedTasks` to the existing lists, replaces `labels` and the scalar fields
outright when supplied, leaves unsupplied fields unchanged, and stamps
`updatedAt`; consequently two successive `linkedCommits` updates accumulate
while two successive `labels` updates keep only the last. -/
theorem updateIssue_field_semantics :
    (∀ (d : IssueStoreData) (id : String) (issue : Issue) (u : IssueUpdates) (now : String),
      lookupRec d.issues id = some issue →
      ∃ issue2 d2, updateIssue d id u now = Except.ok (issue2, d2) ∧
        issue2.linkedCommits = issue.linkedCommits ++ (u.linkedCommits).getD [] ∧
        issue2.linkedTasks = issue.linkedTasks ++ (u.linkedTasks).getD [] ∧
        issue2.labels = (u.labels).getD issue.labels ∧
        issue2.status = (u.status).getD issue.status ∧
        issue2.priority = (u.priority).getD issue.priority ∧
        issue2.resolution = updField u.resolution issue.resolution ∧
        issue2.updatedAt = now ∧
        issue2.id = issue.id ∧ issue2.title = issue.title ∧
        issue2.description = issue.description ∧ issue2.createdAt = issue.createdAt ∧
        lookupRec d2.issues id = some issue2) ∧
    (∀ (d : IssueStoreData) (id : String) (issue : Issue) (now1 now2 : String)
        (i1 : Issue) (d1 : IssueStoreData) (i2 : Issue) (d2 : IssueStoreData),
      lookupRec d.issues id = some issue →
      issue.linkedCommits = [] →
      updateIssue d id
          { status := none, priority := none, labels := none, resolution := none,
            linkedCommits := some ["a"], linkedTasks := none, sourceFile := none } now1
        = Except.ok (i1, d1) →
      updateIssue d1 id
          { status := none, priority := none, labels := none, resolution := none,
            linkedCommits := some ["b"], linkedTasks := none, sourceFile := none } now2
        = Except.ok (i2, d2) →
      i2.linkedCommits = ["a", "b"]) ∧
    (∀ (d : IssueStoreData) (id : String) (issue : Issue) (now1 now2 : String)
        (i1 : Issue) (d1 : IssueStoreData) (i2 : Issue) (d2 : IssueStoreData),
      lookupRec d.issues id = some issue →
      updateIssue d id
          { status := none, priority := none, labels := some ["x"], resolution := none,
            linkedCommits := none, linkedTasks := none, sourceFile := none } now1
        = Except.ok (i1, d1) →
      updateIssue d1 id
          { status := none, priority := none, labels := some ["y"], resolution := none,
            linkedCommits := none, linkedTasks := none, sourceFile := none } now2
        = Except.ok (i2, d2) →
      i2.labels = ["y"]) := by
  have main : ∀ (d : IssueStoreData) (id : String) (issue : Issue) (u : IssueUpdates)
      (now : String), lookupRec d.issues id = some issue →
      updateIssue d id u now =
        Except.ok (appliedIssueUpdate issue u now,
          { d with issues := setRec d.issues id (appliedIssueUpdate issue u now) }) := by
    intro d id issue u now h
    simp [updateIssue, appliedIssueUpdate, h]
  refine ⟨?_, ?_, ?_⟩
  · intro d id issue u now h
    refine ⟨_, _, main d id issue u now h, rfl, rfl, rfl, rfl, rfl, rfl, rfl, rfl, rfl, rfl,
      rfl, ?_⟩
    exact lookupRec_setRec _ _ _
  · intro d id issue now1 now2 i1 d1 i2 d2 h hlc h1 h2
    rw [main d id issue _ now1 h] at h1
    injection h1 with h1
    injection h1 with hi1 hd1
    have hl1 : lookupRec d1.issues id = some (appliedIssueUpdate issue
        { status := none, priority := none, labels := none, resolution := none,
          linkedCommits := some ["a"], linkedTasks := none, sourceFile := none } now1) := by
      rw [← hd1]
      exact lookupRec_setRec _ _ _
    rw [main d1 id _ _ now2 hl1] at h2
    injection h2 with h2
    injection h2 with hi2 _
    rw [← hi2]
    simp [appliedIssueUpdate, hlc]
  · intro d id issue now1 now2 i1 d1 i2 d2 h h1 h2
    rw [main d id issue _ now1 h] at h1
    injection h1 with h1
    injection h1 with hi1 hd1
    have hl1 : lookupRec d1.issues id = some (appliedIssueUpdate issue
        { status := none, priority := none, labels := some ["x"], resolution := none,
          linkedCommits := none, linkedTasks := none, sourceFile := none } now1) := by
      rw [← hd1]
      exact lookupRec_setRec _ _ _
    rw [main d1 id _ _ now2 hl1] at h2
    injection h2 with h2
    injection h2 with hi2 _
    rw [← hi2]
    simp [appliedIssueUpdate]

/-- Witness for C4: a store holding one issue with empty link lists, updated
with a commit link, then again with a second commit link. -/
theorem updateIssue_field_semantics_witness :
    ∃ issue2 d2,
      updateIssue
          { issues := [("i",
              { id := "i", title := "t", description := "d",
                status := IssueStatus.open', priority := IssuePriority.medium,
                labels := [], linkedCommits := [], linkedTasks := [],
                resolution := none, sourceFile := none,
                createdAt := "t0", updatedAt := "t0" })] } "i"
          { status := none, priority := none, labels := some ["x"], resolution := none,
            linkedCommits := some ["a"], linkedTasks := none, sourceFile := none } "t1"
        = Except.ok (issue2, d2) ∧
      issue2.linkedCommits = [] ++ (some ["a"]).getD [] ∧
      issue2.linkedTasks = [] ++ (none : Option (List String)).getD [] ∧
      issue2.labels = (some ["x"]).getD [] ∧
      issue2.status = (none : Option IssueStatus).getD IssueStatus.open' ∧
      issue2.priority = (none : Option IssuePriority).getD IssuePriority.medium ∧
      issue2.resolution = updField none none ∧
      issue2.updatedAt = "t1" ∧
      issue2.id = "i" ∧ issue2.title = "t" ∧
      issue2.description = "d" ∧ issue2.createdAt = "t0" ∧
      lookupRec d2.issues "i" = some issue2 :=
  updateIssue_field_semantics.1 _ "i"
    { id := "i", title := "t", description := "d",
      status := IssueStatus.open', priority := IssuePriority.medium,
      labels := [], linkedCommits := [], linkedTasks := [],
      resolution := none, sourceFile := none,
      createdAt := "t0", updatedAt := "t0" }
    { status := none, priority := none, labels := some ["x"], resolution := none,
      linkedCommits := some ["a"], linkedTasks := none, sourceFile := none } "t1" (by decide)

/-- C5 counterexample: for the stored task "t" whose only declared dependency
id "ghost" is dangling, `getUnmetDependencies` is empty even though it is not
the case that every dependency of "t" has the terminal-success status, so the
claimed equivalence fails. -/
theorem getUnmetDependencies_iff_cex :
    lookupRec ghostDepStore.tasks "t" = some ghostDepTask ∧
    getUnmetDependencies ghostDepStore "t" = [] ∧
    ¬ (∀ depId ∈ ghostDepTask.dependencies, depHasDoneStatus ghostDepStore depId = true) := by
  refine ⟨by decide, by decide, ?_⟩
  intro h
  have := h "ghost" (by decide)
  simp [depHasDoneStatus, ghostDepStore, ghostDepTask, lookupRec] at this

/-- C5 (amended): for a stored task, `getUnmetDependencies` contains exactly
the tasks that some declared dependency id resolves to and whose status is not
the terminal-success status; it is empty iff every dependency id of the task
that resolves to a stored task resolves to one with the terminal-success
status (dangling ids are dropped, not treated as unmet). -/
theorem getUnmetDependencies_spec (d : StoreData) (tid : String) (t : OrchestratorTask)
    (h : lookupRec d.tasks tid = some t) :
    (∀ dep, dep ∈ getUnmetDependencies d tid ↔
        (∃ depId ∈ t.dependencies, lookupRec d.tasks depId = some dep) ∧
          dep.status ≠ TaskStatus.done) ∧
    (getUnmetDependencies d tid = [] ↔
        ∀ depId ∈ t.dependencies, ∀ dep, lookupRec d.tasks depId = some dep →
          dep.status = TaskStatus.done) := by
  constructor
  · intro dep
    simp only [getUnmetDependencies, h, List.mem_filter, List.mem_filterMap,
      bne_iff_ne, ne_eq]
  · rw [getUnmetDependencies, h, List.filter_eq_nil_iff]
    constructor
    · intro hall depId hdep dep hlook
      by_contra hne
      exact hall dep (List.mem_filterMap.mpr ⟨depId, hdep, hlook⟩)
        (by simpa [bne_iff_ne] using hne)
    · intro hall dep hmem hne
      obtain ⟨depId, hdep, hlook⟩ := List.mem_filterMap.mp hmem
      exact (by simpa [bne_iff_ne] using hne : dep.status ≠ TaskStatus.done)
        (hall depId hdep dep hlook)

/-- Witness for C5 (amended) on the concrete store with a dangling
dependency. -/
theorem getUnmetDependencies_spec_witness :
    (∀ dep, dep ∈ getUnmetDependencies ghostDepStore "t" ↔
        (∃ depId ∈ ghostDepTask.dependencies, lookupRec ghostDepStore.tasks depId = some dep) ∧
          dep.status ≠ TaskStatus.done) ∧
    (getUnmetDependencies ghostDepStore "t" = [] ↔
        ∀ depId ∈ ghostDepTask.dependencies, ∀ dep,
          lookupRec ghostDepStore.tasks depId = some dep →
          dep.status = TaskStatus.done) :=
  getUnmetDependencies_spec ghostDepStore "t" ghostDepTask (by decide)

/-- C9: with `dryRun` the cleanup deletes nothing and leaves the world
untouched while still reporting the full orphan set; without `dryRun` it
deletes exactly the local branches matching the sandbox naming convention that
have no live worktree and are not the checked-out branch, leaving every other
branch and all worktrees untouched, and returns both the orphan set and the
deleted subset. -/
theorem sandboxCleanupCore_spec (w : World) :
    ((sandboxCleanupCore w true).1.deletedBranches = [] ∧
     (sandboxCleanupCore w true).2 = w) ∧
    (∀ b, b ∈ (sandboxCleanupCore w true).1.orphanedBranches ↔
        b ∈ w.branches ∧ isOrphanBranch w b = true) ∧
    (∀ b, b ∈ (sandboxCleanupCore w false).1.deletedBranches ↔
        b ∈ w.branches ∧ isOrphanBranch w b = true) ∧
    ((sandboxCleanupCore w false).1.deletedBranches =
      (sandboxCleanupCore w false).1.orphanedBranches) ∧
    (∀ b, b ∈ (sandboxCleanupCore w false).2.branches ↔
        b ∈ w.branches ∧ isOrphanBranch w b = false) ∧
    ((sandboxCleanupCore w false).2.worktrees = w.worktrees) ∧
    ((sandboxCleanupCore w false).2.currentBranch = w.currentBranch) := by
  have horph : ∀ b, b ∈ (w.branches.filter (fun b => b.startsWith "sandbox/")).filter
      (fun b => w.worktrees.all (fun wt => wt.branch != b) && b != w.currentBranch) ↔
      b ∈ w.branches ∧ isOrphanBranch w b = true := by
    intro b
    rw [List.mem_filter, List.mem_filter, isOrphanBranch]
    simp only [Bool.and_eq_true]
    constructor
    · rintro ⟨⟨hb, hs⟩, ha, hc⟩
      exact ⟨hb, ⟨hs, ha⟩, hc⟩
    · rintro ⟨hb, ⟨hs, ha⟩, hc⟩
      exact ⟨⟨hb, hs⟩, ha, hc⟩
  refine ⟨⟨rfl, rfl⟩, ?_, ?_, rfl, ?_, rfl, rfl⟩
  · intro b
    exact horph b
  · intro b
    exact horph b
  · intro b
    simp only [sandboxCleanupCore, Bool.false_eq_true, if_false, List.mem_filter]
    constructor
    · rintro ⟨hb, hnc⟩
      refine ⟨hb, ?_⟩
      have hnm := (bnot_contains_iff _ b).mp hnc
      cases horb : isOrphanBranch w b
      · rfl
      · exact absurd ((horph b).mpr ⟨hb, horb⟩) hnm
    · rintro ⟨hb, hor⟩
      refine ⟨hb, ?_⟩
      refine (bnot_contains_iff _ b).mpr ?_
      intro hmem
      have h2 := ((horph b).mp hmem).2
      rw [hor] at h2
      exact Bool.false_ne_true h2

/-- C1: when `sandboxMergeCore` hits a rebase conflict it returns
success false with the conflicted files and the world exactly as it was —
worktree, branch, container and session metadata untouched, with no teardown
step performed — and a later merge on the same branch whose rebase (and
fast-forward and worktree removal) succeeds completes with success. -/
theorem merge_conflict_preserves_sandbox (w : World) (env : MergeEnv) (branch : String)
    (target : WorktreeInfo) (hfind : findWorktree w branch = some target)
    (hreb : env.rebase.rebaseOk = false) (out : String)
    (hout : env.rebase.diffOutput = some out) (hconf : conflictLines out ≠ []) :
    sandboxMergeCore w env branch =
      (Except.ok { success := false, merged := none,
                   conflictFiles := some (conflictLines out) }, w) ∧
    (∀ env2 : MergeEnv, env2.rebase.rebaseOk = true → env2.ffOk = true →
       env2.removeWorktreeOk = true →
       ∃ w3, sandboxMergeCore w env2 branch =
         (Except.ok { success := true, merged := some true, conflictFiles := none }, w3)) := by
  constructor
  · simp [sandboxMergeCore, hfind,
      rebaseWorktree_conflict env.rebase w.currentBranch out hreb hout hconf]
  · intro env2 h1 h2 h3
    refine ⟨mergeTeardownWorld w env2 branch target, ?_⟩
    simp [sandboxMergeCore, hfind, rebaseWorktree_ok env2.rebase w.currentBranch h1, h2, h3]

/-- Witness for C1: a conflicted merge on the sample world, then a retry in an
environment where every external call succeeds. -/
theorem merge_conflict_preserves_sandbox_witness :
    sandboxMergeCore sampleWorld mergeEnvConflict "b" =
      (Except.ok { success := false, merged := none,
                   conflictFiles := some (conflictLines "f.txt\n") }, sampleWorld) ∧
    (∃ w3, sandboxMergeCore sampleWorld mergeEnvOkAll "b" =
      (Except.ok { success := true, merged := some true, conflictFiles := none }, w3)) :=
  ⟨(merge_conflict_preserves_sandbox sampleWorld mergeEnvConflict "b" sampleWorktree
      (by decide) rfl "f.txt\n" rfl (by decide)).1,
   (merge_conflict_preserves_sandbox sampleWorld mergeEnvConflict "b" sampleWorktree
      (by decide) rfl "f.txt\n" rfl (by decide)).2 mergeEnvOkAll rfl rfl rfl⟩

/-- C3 counterexample: on the sample world, with a clean rebase and
fast-forward but a failing worktree removal, the merge raises instead of
returning success, so not every teardown-step failure is swallowed. -/
theorem merge_teardown_cex :
    (sandboxMergeCore sampleWorld mergeEnvRemoveFails "b").1 =
      Except.error removeWorktreeFailedMsg ∧
    ∀ r : SandboxMergeResult,
      (sandboxMergeCore sampleWorld mergeEnvRemoveFails "b").1 ≠ Except.ok r := by
  constructor
  · decide
  · intro r h
    have h2 : (sandboxMergeCore sampleWorld mergeEnvRemoveFails "b").1 =
        Except.error removeWorktreeFailedMsg := by decide
    rw [h2] at h
    exact Except.noConfusion h

/-- C3 (amended): after a clean rebase the merge fast-forwards and tears down
in the order stop container, remove worktree, delete branch; the
container-stop and branch-delete steps are best-effort (their failure still
yields success), but a worktree-removal failure propagates as an error,
leaving the worktrees and branches as they were. -/
theorem merge_success_teardown (w : World) (env : MergeEnv) (branch : String)
    (target : WorktreeInfo) (hfind : findWorktree w branch = some target)
    (hreb : env.rebase.rebaseOk = true) (hff : env.ffOk = true) :
    (env.removeWorktreeOk = true →
      sandboxMergeCore w env branch =
          (Except.ok { success := true, merged := some true, conflictFiles := none },
           mergeTeardownWorld w env branch target) ∧
        (∀ wt ∈ (mergeTeardownWorld w env branch target).worktrees, wt.path ≠ target.path) ∧
        (env.deleteBranchOk = true →
          branch ∉ (mergeTeardownWorld w env branch target).branches) ∧
        (env.deleteBranchOk = false →
          (mergeTeardownWorld w env branch target).branches = w.branches) ∧
        (env.containerDownOk = true →
          target.path ∉ (mergeTeardownWorld w env branch target).running) ∧
        (mergeTeardownWorld w env branch target).metadata = w.metadata) ∧
    (env.removeWorktreeOk = false →
      ∃ w1, sandboxMergeCore w env branch = (Except.error removeWorktreeFailedMsg, w1) ∧
        w1.worktrees = w.worktrees ∧ w1.branches = w.branches) := by
  have hw1wt : (if env.containerDownOk then stopContainer w target.path else w).worktrees
      = w.worktrees := by
    split <;> rfl
  have hw1br : (if env.containerDownOk then stopContainer w target.path else w).branches
      = w.branches := by
    split <;> rfl
  have hw1md : (if env.containerDownOk then stopContainer w target.path else w).metadata
      = w.metadata := by
    split <;> rfl
  constructor
  · intro hrm
    refine ⟨?_, ?_, ?_, ?_, ?_, ?_⟩
    · simp [sandboxMergeCore, hfind, rebaseWorktree_ok env.rebase w.currentBranch hreb,
        hff, hrm]
    · intro wt hwt
      cases hdb : env.deleteBranchOk <;>
        simp only [mergeTeardownWorld, hdb, if_true, if_false, Bool.false_eq_true] at hwt
      · exact path_ne_of_mem_filter _ _ wt hwt
      · exact path_ne_of_mem_filter _ _ wt hwt
    · intro hdb hmem
      simp only [mergeTeardownWorld, hdb, if_true] at hmem
      exact not_mem_filter_ne_self _ _ hmem
    · intro hdb
      simp only [mergeTeardownWorld, hdb, Bool.false_eq_true, if_false]
      exact hw1br
    · intro hcd hmem
      simp only [mergeTeardownWorld, hcd, if_true] at hmem
      cases hdb : env.deleteBranchOk <;>
        simp only [hdb, Bool.false_eq_true, if_true, if_false] at hmem
      · have hmem2 : target.path ∈ (stopContainer w target.path).running := hmem
        have h2 := (List.mem_filter.mp hmem2).2
        simp at h2
      · have hmem2 : target.path ∈ (stopContainer w target.path).running := hmem
        have h2 := (List.mem_filter.mp hmem2).2
        simp at h2
    · cases hdb : env.deleteBranchOk <;>
        simp only [mergeTeardownWorld, hdb, if_true, if_false, Bool.false_eq_true]
      · exact hw1md
      · exact hw1md
  · intro hrm
    refine ⟨if env.containerDownOk then stopContainer w target.path else w, ?_, hw1wt, hw1br⟩
    simp [sandboxMergeCore, hfind, rebaseWorktree_ok env.rebase w.currentBranch hreb,
      hff, hrm]

/-- Witness for C3 (amended): a clean merge on the sample world where the
branch deletion fails but the call still succeeds. -/
theorem merge_success_teardown_witness :
    sandboxMergeCore sampleWorld
        { rebase := { rebaseOk := true, diffOutput := none }, ffOk := true,
          containerDownOk := true, removeWorktreeOk := true, deleteBranchOk := false } "b" =
      (Except.ok { success := true, merged := some true, conflictFiles := none },
       mergeTeardownWorld sampleWorld
         { rebase := { rebaseOk := true, diffOutput := none }, ffOk := true,
           containerDownOk := true, removeWorktreeOk := true, deleteBranchOk := false } "b"
         sampleWorktree) ∧
    (mergeTeardownWorld sampleWorld
       { rebase := { rebaseOk := true, diffOutput := none }, ffOk := true,
         containerDownOk := true, removeWorktreeOk := true, deleteBranchOk := false } "b"
       sampleWorktree).branches = sampleWorld.branches :=
  ⟨((merge_success_teardown sampleWorld
      { rebase := { rebaseOk := true, diffOutput := none }, ffOk := true,
        containerDownOk := true, removeWorktreeOk := true, deleteBranchOk := false } "b"
      sampleWorktree (by decide) rfl rfl).1 rfl).1,
   ((merge_success_teardown sampleWorld
      { rebase := { rebaseOk := true, diffOutput := none }, ffOk := true,
        containerDownOk := true, removeWorktreeOk := true, deleteBranchOk := false } "b"
      sampleWorktree (by decide) rfl rfl).1 rfl).2.2.2.1 rfl⟩

/-- C2: when the worktree and branch are successfully created but the
container fails to start — either the start call throws or its outcome record
is not success — `sandboxUpCore` rolls the just-created worktree and branch
back (the resulting world equals the initial one, so no partial sandbox
remains) and raises the error. -/
theorem up_rolls_back_on_container_failure (w : World) (env : UpEnv)
    (options : SandboxUpOptions)
    (hbr : upBranchName env options ∉ w.branches)
    (hbase : env.baseResolves = true)
    (hpath : ∀ wt ∈ w.worktrees, wt.path ≠ upWorktreePath env options) :
    (∀ msg, env.containerUp = ContainerUpOutcome.thrown msg →
        sandboxUpCore w env options = (Except.error msg, w)) ∧
    (∀ report, env.containerUp = ContainerUpOutcome.finished report →
        report.outcome ≠ "success" →
        sandboxUpCore w env options =
          (Except.error ("Container failed to start: " ++ (report.message).getD "unknown error"),
           w)) := by
  have hc : w.branches.contains (upBranchName env options) = false := by simpa using hbr
  have ha : (w.worktrees.any (fun wt => wt.path == upWorktreePath env options)) = false := by
    simp only [List.any_eq_false]
    intro wt hwt
    simpa using hpath wt hwt
  have hwf : (w.worktrees ++
      [({ path := upWorktreePath env options, branch := upBranchName env options,
          head := env.baseHead, isBare := false } : WorktreeInfo)]).filter
        (fun x => x.path != upWorktreePath env options) = w.worktrees := by
    rw [List.filter_append, filter_path_ne_eq_self w.worktrees _ hpath]
    simp
  have hbf : (w.branches ++ [upBranchName env options]).filter
      (fun b => b != upBranchName env options) = w.branches := by
    rw [List.filter_append, filter_ne_eq_self_of_not_mem w.branches _ hbr]
    simp
  constructor
  · intro msg hm
    simp only [sandboxUpCore, hc, hbase, ha, hm, Bool.false_eq_true, Bool.true_eq_false,
      if_false]
    rw [hwf, hbf]
  · intro report hm hout
    have hbne : (report.outcome != "success") = true := by simpa using hout
    simp only [sandboxUpCore, hc, hbase, ha, hm, hbne, Bool.false_eq_true, Bool.true_eq_false,
      if_false, if_true]
    rw [hwf, hbf]

/-- Witness for C2: on a world with no worktrees, an up call whose container
start throws returns the error with the world unchanged. -/
theorem up_rolls_back_on_container_failure_witness :
    sandboxUpCore emptyWorld upEnvThrown upOptsB = (Except.error "boom", emptyWorld) :=
  (up_rolls_back_on_container_failure emptyWorld upEnvThrown upOptsB (by decide) rfl
    (by decide)).1 "boom" rfl

/-- C7 counterexample: a successful exec with a caller-supplied session id
leaves the session log unchanged, so the log does not grow by one appended
record on every successful exec. -/
theorem exec_session_append_cex :
    (sandboxExecCore sampleWorld execEnvOk execOptsResume).1 =
      Except.ok { worktreePath := "/wts/b", exitCode := 0, sessionId := "s1" } ∧
    readSessions (sandboxExecCore sampleWorld execEnvOk execOptsResume).2 "/wts/b" =
      readSessions sampleWorld "/wts/b" ∧
    ¬ ∃ e : SessionEntry,
        readSessions (sandboxExecCore sampleWorld execEnvOk execOptsResume).2 "/wts/b" =
          readSessions sampleWorld "/wts/b" ++ [e] := by
  refine ⟨by decide, by decide, ?_⟩
  rintro ⟨e, he⟩
  have h1 : readSessions (sandboxExecCore sampleWorld execEnvOk execOptsResume).2 "/wts/b" =
      [sampleEntry] := by decide
  have h2 : readSessions sampleWorld "/wts/b" = [sampleEntry] := by decide
  rw [h1, h2] at he
  have hlen := congrArg List.length he
  simp at hlen

/-- C7 (amended): a successful `sandboxExecCore` — container started, task
run — appends exactly one session record when the caller-supplied session id
is falsy in the JS sense: absent (one record carrying the freshly generated
id) or the empty string (one record carrying the empty id); when a non-empty
session id is supplied, the session metadata is left entirely unchanged. -/
theorem exec_session_log_spec (w : World) (env : ExecEnv) (options : SandboxExecOpts)
    (target : WorktreeInfo) (hfind : findWorktree w options.branch = some target)
    (report : ContainerUpReport) (hup : env.containerUp = ContainerUpOutcome.finished report)
    (hok : report.outcome = "success") :
    (options.sessionId = none →
      ∃ r w2, sandboxExecCore w env options = (Except.ok r, w2) ∧
        r.sessionId = env.freshUuid ∧ r.worktreePath = target.path ∧
        r.exitCode = env.exitCode ∧
        readSessions w2 target.path =
          readSessions w target.path ++
            [{ sessionId := env.freshUuid, createdAt := env.now,
               task := some options.task }]) ∧
    (options.sessionId = some "" →
      ∃ r w2, sandboxExecCore w env options = (Except.ok r, w2) ∧
        r.sessionId = "" ∧ r.worktreePath = target.path ∧
        r.exitCode = env.exitCode ∧
        readSessions w2 target.path =
          readSessions w target.path ++
            [{ sessionId := "", createdAt := env.now, task := some options.task }]) ∧
    (∀ sid, options.sessionId = some sid → sid ≠ "" →
      ∃ r w2, sandboxExecCore w env options = (Except.ok r, w2) ∧
        r.sessionId = sid ∧ r.worktreePath = target.path ∧
        r.exitCode = env.exitCode ∧ w2.metadata = w.metadata) := by
  have hbne : (report.outcome != "success") = false := by simp [hok]
  refine ⟨?_, ?_, ?_⟩
  · intro hsid
    refine ⟨{ worktreePath := target.path, exitCode := env.exitCode,
              sessionId := env.freshUuid },
            addSessionEntry (startContainer w target.path) target.path
              { sessionId := env.freshUuid, createdAt := env.now,
                task := some options.task },
            ?_, rfl, rfl, rfl, ?_⟩
    · simp only [sandboxExecCore, hfind, hup, hbne, Bool.false_eq_true, if_false, hsid,
        Option.getD_none, jsFalsy, if_true]
    · rw [readSessions_addSessionEntry, readSessions_startContainer]
  · intro hsid
    refine ⟨{ worktreePath := target.path, exitCode := env.exitCode, sessionId := "" },
            addSessionEntry (startContainer w target.path) target.path
              { sessionId := "", createdAt := env.now, task := some options.task },
            ?_, rfl, rfl, rfl, ?_⟩
    · simp only [sandboxExecCore, hfind, hup, hbne, Bool.false_eq_true, if_false, hsid,
        Option.getD_some, jsFalsy, beq_self_eq_true, if_true]
    · rw [readSessions_addSessionEntry, readSessions_startContainer]
  · intro sid hsid hne
    have hf : jsFalsy (some sid) = false := by
      simp [jsFalsy, hne]
    refine ⟨{ worktreePath := target.path, exitCode := env.exitCode, sessionId := sid },
            startContainer w target.path, ?_, rfl, rfl, rfl, ?_⟩
    · simp only [sandboxExecCore, hfind, hup, hbne, Bool.false_eq_true, if_false, hsid,
        Option.getD_some, hf]
    · exact startContainer_metadata w target.path

/-- Witness for C7 (amended): a fresh exec on the sample world appends one
record after the prior session entry. -/
theorem exec_session_log_spec_witness :
    ∃ r w2, sandboxExecCore sampleWorld execEnvOk execOptsFresh = (Except.ok r, w2) ∧
      r.sessionId = "fresh" ∧ r.worktreePath = "/wts/b" ∧
      r.exitCode = 0 ∧
      readSessions w2 "/wts/b" =
        readSessions sampleWorld "/wts/b" ++
          [{ sessionId := "fresh", createdAt := "t1", task := some "fresh task" }] :=
  (exec_session_log_spec sampleWorld execEnvOk execOptsFresh sampleWorktree (by decide)
    successReport rfl rfl).1 rfl

/-- Witness for C9: dry-run cleanup on the sample world deletes nothing and
returns the world unchanged. -/
theorem sandboxCleanupCore_spec_witness :
    (sandboxCleanupCore sampleWorld true).1.deletedBranches = [] ∧
    (sandboxCleanupCore sampleWorld true).2 = sampleWorld :=
  (sandboxCleanupCore_spec sampleWorld).1

end CopilotDevcontainers
